import Mathlib

/-!
Shallow embedding of the reqres-clone FastAPI service
(`app/models.py`, `app/database/users.py`, `app/database/resources.py`,
`app/main.py`, `app/routes/users.py`, `app/routes/resources.py`,
`app/routes/auth.py`) together with theorems checking the repository's
specification against this embedding.

Modelling conventions:
* A database session is modelled by a `UserDb` / `ResourceDb` record: a list
  of rows (in ascending-id insertion order, as returned by the unfiltered
  select), the auto-increment counter, and a `fails` flag standing for "any
  store-level operation inside the `try` block raises".  Every service
  function in `app/database/*.py` wraps its whole body in
  `try: ... except: return sentinel`; the `fails` branch of each Lean
  definition is that `except` branch.
* Python `Optional[T]` arguments become `Option T`; Python truthiness of
  strings (`if not email`) is modelled explicitly (`none` or `""` is falsy).
* `HTTPException(status_code, detail)` becomes the `error` side of an
  `Except (Nat × Detail) _`; `detail` is either a plain string or the
  `{"error": msg}` object, mirrored by the `Detail` inductive.
* Timestamps (`datetime.now()`) and random draws (`random.randint`) are
  passed in as explicit parameters, since they are the only ambient effects.
-/

/-- `app/models.py` `User` table row (`id`, `email`, `first_name`,
`last_name`, `avatar`).  There is no `job` column. -/
structure User where
  id : Int
  email : String
  first_name : String
  last_name : String
  avatar : String
deriving Repr, DecidableEq

/-- `app/models.py` `Resource` table row. -/
structure Resource where
  id : Int
  name : String
  year : Int
  color : String
  pantone_value : String
deriving Repr, DecidableEq

/-- `fastapi_pagination.Page` envelope as constructed by the repository:
`Page(items=..., page=..., size=..., total=..., pages=...)`. -/
structure Page (α : Type) where
  items : List α
  page : Nat
  size : Nat
  total : Nat
  pages : Nat
deriving Repr, DecidableEq

/-- A database session over the `user` table: the rows the session sees,
the auto-increment counter, and whether store operations raise. -/
structure UserDb where
  rows : List User
  nextId : Int
  fails : Bool
deriving Repr, DecidableEq

/-- A database session over the `resource` table. -/
structure ResourceDb where
  rows : List Resource
  nextId : Int
  fails : Bool
deriving Repr, DecidableEq

namespace DB

/-- `app/database/users.py` `get_user`: `session.get(User, user_id)`,
any exception is caught and converted to `None`. -/
def get_user (db : UserDb) (user_id : Int) : Option User :=
  if db.fails then none
  else db.rows.find? (fun u => u.id = user_id)

/-- `app/database/users.py` `get_users_paginated`: counts the rows, selects
`offset((page-1)*size).limit(size)`, computes
`total_pages = (total_count + size - 1) // size`; on exception returns the
empty page `Page(items=[], page, size, total=0, pages=0)`. -/
def get_users_paginated (db : UserDb) (page : Nat) (size : Nat) : Page User :=
  if db.fails then { items := [], page := page, size := size, total := 0, pages := 0 }
  else
    let total_count := db.rows.length
    let offset := (page - 1) * size
    let users := (db.rows.drop offset).take size
    let total_pages := (total_count + size - 1) / size
    { items := users, page := page, size := size, total := total_count, pages := total_pages }

/-- `app/database/users.py` `create_user`: inserts a row with the
store-assigned auto-increment id and returns it; `None` on exception. -/
def create_user (db : UserDb) (email : String) (first_name : String)
    (last_name : String) (avatar : String) : Option User × UserDb :=
  if db.fails then (none, db)
  else
    let new_user : User :=
      { id := db.nextId, email := email, first_name := first_name
        last_name := last_name, avatar := avatar }
    (some new_user, { db with rows := db.rows ++ [new_user], nextId := db.nextId + 1 })

/-- `app/database/users.py` `update_user`: fetches the row; `None` (store
unchanged) if absent; otherwise each argument that `is not None` overwrites
the corresponding field, the row is committed, and the updated row returned.
`None` with the session rolled back on exception. -/
def update_user (db : UserDb) (user_id : Int) (email : Option String)
    (first_name : Option String) (last_name : Option String)
    (avatar : Option String) : Option User × UserDb :=
  if db.fails then (none, db)
  else
    match db.rows.find? (fun u => u.id = user_id) with
    | none => (none, db)
    | some user =>
      let user' : User :=
        { user with
          email := email.getD user.email
          first_name := first_name.getD user.first_name
          last_name := last_name.getD user.last_name
          avatar := avatar.getD user.avatar }
      (some user',
       { db with rows := db.rows.map (fun u => if u.id = user_id then user' else u) })

/-- `app/database/users.py` `delete_user`: `False` if the row is absent or
on exception; otherwise removes the row and returns `True`. -/
def delete_user (db : UserDb) (user_id : Int) : Bool × UserDb :=
  if db.fails then (false, db)
  else
    match db.rows.find? (fun u => u.id = user_id) with
    | none => (false, db)
    | some _ => (true, { db with rows := db.rows.filter (fun u => ¬ u.id = user_id) })

/-- `app/database/users.py` `get_users_count`: row count, `0` on exception. -/
def get_users_count (db : UserDb) : Nat :=
  if db.fails then 0 else db.rows.length

/-- `app/database/resources.py` `get_resource`. -/
def get_resource (db : ResourceDb) (resource_id : Int) : Option Resource :=
  if db.fails then none
  else db.rows.find? (fun r => r.id = resource_id)

/-- `app/database/resources.py` `get_resources_paginated`: same shape as
`get_users_paginated`, over the `resource` table. -/
def get_resources_paginated (db : ResourceDb) (page : Nat) (size : Nat) : Page Resource :=
  if db.fails then { items := [], page := page, size := size, total := 0, pages := 0 }
  else
    let total_count := db.rows.length
    let offset := (page - 1) * size
    let resources := (db.rows.drop offset).take size
    let total_pages := (total_count + size - 1) / size
    { items := resources, page := page, size := size, total := total_count, pages := total_pages }

/-- `app/database/resources.py` `create_resource`. -/
def create_resource (db : ResourceDb) (name : String) (year : Int)
    (color : String) (pantone_value : String) : Option Resource × ResourceDb :=
  if db.fails then (none, db)
  else
    let new_resource : Resource :=
      { id := db.nextId, name := name, year := year
        color := color, pantone_value := pantone_value }
    (some new_resource,
     { db with rows := db.rows ++ [new_resource], nextId := db.nextId + 1 })

/-- `app/database/resources.py` `update_resource`: same merge-only-non-null
pattern as `update_user`. -/
def update_resource (db : ResourceDb) (resource_id : Int) (name : Option String)
    (year : Option Int) (color : Option String)
    (pantone_value : Option String) : Option Resource × ResourceDb :=
  if db.fails then (none, db)
  else
    match db.rows.find? (fun r => r.id = resource_id) with
    | none => (none, db)
    | some resource =>
      let resource' : Resource :=
        { resource with
          name := name.getD resource.name
          year := year.getD resource.year
          color := color.getD resource.color
          pantone_value := pantone_value.getD resource.pantone_value }
      (some resource',
       { db with rows := db.rows.map (fun r => if r.id = resource_id then resource' else r) })

/-- `app/database/resources.py` `delete_resource`. -/
def delete_resource (db : ResourceDb) (resource_id : Int) : Bool × ResourceDb :=
  if db.fails then (false, db)
  else
    match db.rows.find? (fun r => r.id = resource_id) with
    | none => (false, db)
    | some _ => (true, { db with rows := db.rows.filter (fun r => ¬ r.id = resource_id) })

/-- `app/database/resources.py` `get_resources_count`. -/
def get_resources_count (db : ResourceDb) : Nat :=
  if db.fails then 0 else db.rows.length

end DB

/-- `app/main.py` `paginate_data`: slices `data[(page-1)*size : (page-1)*size + size]`
and computes `total_pages = (total + size - 1) // size`. -/
def paginate_data {α : Type} (data : List α) (page : Nat) (size : Nat) : Page α :=
  let total := data.length
  let start_index := (page - 1) * size
  let items := (data.drop start_index).take size
  let total_pages := (total + size - 1) / size
  { items := items, page := page, size := size, total := total, pages := total_pages }

/-- The `detail=` payload of `HTTPException`: the routes raise either a plain
string (`detail="Invalid user ID"`) or an object (`detail={"error": msg}`). -/
inductive Detail where
  | text (msg : String)
  | errorObj (msg : String)
deriving Repr, DecidableEq

/-- An HTTP response: the success status comes from the route decorator
(`status_code=HTTPStatus.CREATED` etc., default 200), the error status and
detail from the raised `HTTPException`. -/
inductive HttpResponse (α : Type) where
  | ok (status : Nat) (body : α)
  | err (status : Nat) (detail : Detail)
deriving Repr, DecidableEq

/-- `app/models.py` `Support` block, with the static values hard-coded in
the single-entity handlers. -/
structure Support where
  url : String
  text : String
deriving Repr, DecidableEq

/-- The static support block used by `get_single_user`,
`get_single_resource` and `get_users_with_delay`. -/
def support_block : Support :=
  { url := "https://contentcaddy.io?utm_source=reqres&utm_medium=json&utm_campaign=referral"
    text := "Tired of writing endless social media content? Let Content Caddy generate it for you." }

/-- `app/models.py` `SingleUserResponse`: `{"data": ..., "support": ...}`. -/
structure SingleUserResponse where
  data : User
  support : Support
deriving Repr, DecidableEq

/-- `app/models.py` `SingleResourceResponse`. -/
structure SingleResourceResponse where
  data : Resource
  support : Support
deriving Repr, DecidableEq

/-- Tokenizer behind `pySplit`: walks the character list, accumulating the
current (reversed) token and emitting it at whitespace boundaries. -/
def pyTokens : List Char → List Char → List (List Char)
  | [], cur => if cur.isEmpty then [] else [cur.reverse]
  | c :: cs, cur =>
    if c.isWhitespace then
      if cur.isEmpty then pyTokens cs [] else cur.reverse :: pyTokens cs []
    else pyTokens cs (c :: cur)

/-- Python `str.split()` with no argument: split on runs of whitespace,
discarding empty chunks.  (Implemented over the character list so that it
evaluates inside the kernel.) -/
def pySplit (s : String) : List String :=
  (pyTokens s.data []).map (fun cs => String.mk cs)

/-- Python `str.lower()` (ASCII-relevant part). -/
def pyLower (s : String) : String := String.mk (s.data.map Char.toLower)

/-- Python `str.replace(' ', '.')`: the pattern is the single space
character, so replacement is a per-character map. -/
def pyReplaceSpaceDot (s : String) : String :=
  String.mk (s.data.map (fun c => if c = ' ' then '.' else c))

/-- Python `str.strip()`: remove leading and trailing whitespace. -/
def pyStrip (s : String) : String :=
  String.mk (((s.data.dropWhile Char.isWhitespace).reverse.dropWhile Char.isWhitespace).reverse)

/-- `app/routes/users.py` name translation, first component:
`name.split()[0] if name.split() else name`. -/
def derive_first_name (name : String) : String :=
  match pySplit name with
  | [] => name
  | t :: _ => t

/-- `app/routes/users.py` name translation, second component:
`name.split()[-1] if len(name.split()) > 1 else ""`. -/
def derive_last_name (name : String) : String :=
  let parts := pySplit name
  if parts.length > 1 then parts.getLastD "" else ""

/-- `app/routes/users.py` `create_user` synthesized email:
`f"{name.lower().replace(' ', '.')}@example.com"`. -/
def generated_email (name : String) : String :=
  pyReplaceSpaceDot (pyLower name) ++ "@example.com"

/-- Request body of POST `/api/users` (`CreateUserRequest`): `name`, `job`. -/
structure CreateUserRequest where
  name : String
  job : String
deriving Repr, DecidableEq

/-- Response of POST `/api/users` (`CreateUserResponse`): the echoed fields
plus the store id as a string and the response-construction timestamp. -/
structure CreateUserResponse where
  name : String
  job : String
  id : String
  createdAt : Nat
deriving Repr, DecidableEq

/-- Request body of PUT/PATCH `/api/users/{id}` (`UpdateUserRequest`):
both fields optional. -/
structure UpdateUserRequest where
  name : Option String
  job : Option String
deriving Repr, DecidableEq

/-- Response of PUT/PATCH `/api/users/{id}` (`UpdateUserResponse`). -/
structure UpdateUserResponse where
  name : Option String
  job : Option String
  updatedAt : Nat
deriving Repr, DecidableEq

namespace API

/-- `app/routes/users.py` `get_users_with_delay`: sleeps `delay` seconds
(0–10, enforced by the query validator) and then returns the page from
`DB.get_users_paginated`.  The first component records the slept duration,
the second is the response body. -/
def get_users_with_delay (db : UserDb) (page : Nat) (size : Nat)
    (delay : Nat) : Nat × Page User :=
  let slept := if delay > 0 then delay else 0
  (slept, DB.get_users_paginated db page size)

/-- `app/routes/users.py` `get_single_user`: 422 for `user_id < 1`,
404 `{"error": f"User {user_id} not found"}` when the lookup yields nothing,
otherwise 200 with data + support. -/
def get_single_user (db : UserDb) (user_id : Int) : HttpResponse SingleUserResponse :=
  if user_id < 1 then .err 422 (.text "Invalid user ID")
  else
    match DB.get_user db user_id with
    | none => .err 404 (.errorObj ("User " ++ toString user_id ++ " not found"))
    | some user => .ok 200 { data := user, support := support_block }

/-- `app/routes/users.py` `create_user`: validates non-blank `name`/`job`,
synthesizes email/avatar, inserts via `DB.create_user`, 500 if the insert
returned `None`, else 201 with the assigned id (stringified) and a fresh
`createdAt`.  `rand_idx` is the `random.randint(1, 12)` draw for the avatar,
`now` the `datetime.now()` timestamp. -/
def create_user (db : UserDb) (rand_idx : Nat) (now : Nat)
    (body : CreateUserRequest) : HttpResponse CreateUserResponse × UserDb :=
  if pyStrip body.name = "" then (.err 400 (.text "Name is required"), db)
  else if pyStrip body.job = "" then (.err 400 (.text "Job is required"), db)
  else
    let email := generated_email body.name
    let avatar := "https://reqres.in/img/faces/" ++ toString rand_idx ++ "-image.jpg"
    let result := DB.create_user db email (derive_first_name body.name)
      (derive_last_name body.name) avatar
    match result.1 with
    | none => (.err 500 (.text "Failed to create user"), result.2)
    | some db_user =>
      (.ok 201 { name := body.name, job := body.job
                 id := toString db_user.id, createdAt := now }, result.2)

/-- `app/routes/users.py` `update_user_put`: 422 for `user_id < 1`, 404 when
the user is absent; otherwise, only when `user_data.name` is truthy, writes
the derived first/last name through `DB.update_user`; always answers 200
with the echoed `name`/`job` and a fresh `updatedAt`. -/
def update_user_put (db : UserDb) (user_id : Int) (body : UpdateUserRequest)
    (now : Nat) : HttpResponse UpdateUserResponse × UserDb :=
  if user_id < 1 then (.err 422 (.text "Invalid user ID"), db)
  else
    match DB.get_user db user_id with
    | none => (.err 404 (.errorObj ("User " ++ toString user_id ++ " not found")), db)
    | some _ =>
      let db' :=
        match body.name with
        | some n =>
          if ¬ n = "" then
            (DB.update_user db user_id none (some (derive_first_name n))
              (some (derive_last_name n)) none).2
          else db
        | none => db
      (.ok 200 { name := body.name, job := body.job, updatedAt := now }, db')

/-- `app/routes/users.py` `update_user_patch`: textually the same logic as
`update_user_put`. -/
def update_user_patch (db : UserDb) (user_id : Int) (body : UpdateUserRequest)
    (now : Nat) : HttpResponse UpdateUserResponse × UserDb :=
  if user_id < 1 then (.err 422 (.text "Invalid user ID"), db)
  else
    match DB.get_user db user_id with
    | none => (.err 404 (.errorObj ("User " ++ toString user_id ++ " not found")), db)
    | some _ =>
      let db' :=
        match body.name with
        | some n =>
          if ¬ n = "" then
            (DB.update_user db user_id none (some (derive_first_name n))
              (some (derive_last_name n)) none).2
          else db
        | none => db
      (.ok 200 { name := body.name, job := body.job, updatedAt := now }, db')

/-- `app/routes/users.py` `delete_user`: 422 for `user_id < 1`; deletes via
`DB.delete_user`; 404 when nothing was deleted, else 204 (the decorator's
`status_code=HTTPStatus.NO_CONTENT`) with no body. -/
def delete_user (db : UserDb) (user_id : Int) : HttpResponse Unit × UserDb :=
  if user_id < 1 then (.err 422 (.text "Invalid user ID"), db)
  else
    let result := DB.delete_user db user_id
    if result.1 then (.ok 204 (), result.2)
    else (.err 404 (.errorObj ("User " ++ toString user_id ++ " not found")), result.2)

/-- `app/routes/resources.py` `get_single_resource`. -/
def get_single_resource (db : ResourceDb) (resource_id : Int) :
    HttpResponse SingleResourceResponse :=
  if resource_id < 1 then .err 422 (.text "Invalid resource ID")
  else
    match DB.get_resource db resource_id with
    | none => .err 404 (.errorObj ("Resource " ++ toString resource_id ++ " not found"))
    | some resource => .ok 200 { data := resource, support := support_block }

/-- `app/routes/resources.py` `delete_resource`. -/
def delete_resource (db : ResourceDb) (resource_id : Int) : HttpResponse Unit × ResourceDb :=
  if resource_id < 1 then (.err 422 (.text "Invalid resource ID"), db)
  else
    let result := DB.delete_resource db resource_id
    if result.1 then (.ok 204 (), result.2)
    else (.err 404 (.errorObj ("Resource " ++ toString resource_id ++ " not found")), result.2)

end API

/-- Request body of POST `/api/register` and `/api/login`: a plain dict,
each key possibly absent. -/
structure AuthBody where
  email : Option String
  password : Option String
deriving Repr, DecidableEq

/-- Python truthiness test `not x` for an optional string: true when the
key is absent or the value is the empty string. -/
def pyFalsy : Option String → Bool
  | none => true
  | some s => s = ""

/-- Response of POST `/api/register`. -/
structure RegisterResponse where
  id : Nat
  token : String
deriving Repr, DecidableEq

/-- Response of POST `/api/login`. -/
structure LoginResponse where
  token : String
deriving Repr, DecidableEq

namespace API

/-- `app/routes/auth.py` `register_user`.  `validEmail` stands for the
external `email_validator.validate_email` syntax check; `randomId` for
`random.randint(1, 10)`.  Checks run in source order: falsy email →
"Missing email"; `validate_email` failure → "Invalid email format"; falsy
password → "Missing password"; otherwise 201 with the random id and the
fixed token. -/
def register_user (validEmail : String → Bool) (randomId : Nat)
    (body : AuthBody) : HttpResponse RegisterResponse :=
  if pyFalsy body.email then .err 400 (.errorObj "Missing email")
  else
    match body.email with
    | none => .err 400 (.errorObj "Missing email")
    | some email =>
      if ¬ validEmail email then .err 400 (.errorObj "Invalid email format")
      else if pyFalsy body.password then .err 400 (.errorObj "Missing password")
      else .ok 201 { id := randomId, token := "QpwL5tke4Pnpja7X4" }

/-- `app/routes/auth.py` `login_user`: same validation chain, 200 with only
the fixed token. -/
def login_user (validEmail : String → Bool) (body : AuthBody) :
    HttpResponse LoginResponse :=
  if pyFalsy body.email then .err 400 (.errorObj "Missing email")
  else
    match body.email with
    | none => .err 400 (.errorObj "Missing email")
    | some email =>
      if ¬ validEmail email then .err 400 (.errorObj "Invalid email format")
      else if pyFalsy body.password then .err 400 (.errorObj "Missing password")
      else .ok 200 { token := "QpwL5tke4Pnpja7X4" }

end API

/-! ## Sample stores used by witnesses -/

/-- A sample user row. -/
def mkUser (i : Int) : User :=
  { id := i, email := "user@example.com", first_name := "First", last_name := "Last"
    avatar := "https://reqres.in/img/faces/1-image.jpg" }

/-- A sample resource row. -/
def mkResource (i : Int) : Resource :=
  { id := i, name := "cerulean", year := 2000, color := "#98B2D1"
    pantone_value := "15-4020" }

/-- A healthy three-row user store. -/
def sampleUserDb : UserDb :=
  { rows := [mkUser 1, mkUser 2, mkUser 3], nextId := 4, fails := false }

/-- A healthy three-row resource store. -/
def sampleResourceDb : ResourceDb :=
  { rows := [mkResource 1, mkResource 2, mkResource 3], nextId := 4, fails := false }

/-- A user store whose session operations raise. -/
def failingUserDb : UserDb :=
  { rows := [mkUser 1], nextId := 2, fails := true }

/-- A resource store whose session operations raise. -/
def failingResourceDb : ResourceDb :=
  { rows := [mkResource 1], nextId := 2, fails := true }

/-! ## Helper lemmas -/

/-- The repository's page-count expression `(t + s - 1) / s` is the least
`m` with `t ≤ m * s`, i.e. the ceiling of `t / s`. -/
theorem pages_formula_le_iff (t s m : Nat) (hs : 1 ≤ s) :
    (t + s - 1) / s ≤ m ↔ t ≤ m * s := by
  rw [← Nat.lt_succ_iff, Nat.div_lt_iff_lt_mul (by omega), Nat.succ_mul]
  constructor
  · intro h; omega
  · intro h; omega

theorem get_users_paginated_eq (udb : UserDb) (page size : Nat)
    (hu : udb.fails = false) :
    DB.get_users_paginated udb page size =
      { items := (udb.rows.drop ((page - 1) * size)).take size, page := page
        size := size, total := udb.rows.length
        pages := (udb.rows.length + size - 1) / size } := by
  simp [DB.get_users_paginated, hu]

theorem get_resources_paginated_eq (rdb : ResourceDb) (page size : Nat)
    (hr : rdb.fails = false) :
    DB.get_resources_paginated rdb page size =
      { items := (rdb.rows.drop ((page - 1) * size)).take size, page := page
        size := size, total := rdb.rows.length
        pages := (rdb.rows.length + size - 1) / size } := by
  simp [DB.get_resources_paginated, hr]

/-- If the requested page lies beyond the computed page count, the slice
window starts at or past the end of the data. -/
theorem beyond_pages_slice_nil {α : Type} (data : List α) (page size : Nat)
    (hs : 1 ≤ size) (h : (data.length + size - 1) / size < page) :
    (data.drop ((page - 1) * size)).take size = [] := by
  have hle : (data.length + size - 1) / size ≤ page - 1 := by omega
  have := (pages_formula_le_iff data.length size (page - 1) hs).mp hle
  rw [List.drop_eq_nil_of_le (by omega), List.take_nil]

/-! ## C1: page-count arithmetic -/

/-- The page-count rule exactly as the specification words it:
`pages = 1 if total == 0 else ceil(total / size)`. -/
def spec_pages (total size : Nat) : Nat :=
  if total = 0 then 1 else (total + size - 1) / size

/-- C1 counterexample: on an empty store with `page = 1`, `size = 6`, both
paginated list functions report `total = 0` but compute `pages = 0`, not
the `pages = 1` that the claim requires for `total == 0`. -/
theorem C1_pages_counterexample :
    (DB.get_users_paginated { rows := [], nextId := 1, fails := false } 1 6).total = 0 ∧
    spec_pages 0 6 = 1 ∧
    (DB.get_users_paginated { rows := [], nextId := 1, fails := false } 1 6).pages = 0 ∧
    (DB.get_resources_paginated { rows := [], nextId := 1, fails := false } 1 6).pages = 0 ∧
    ¬ (DB.get_users_paginated { rows := [], nextId := 1, fails := false } 1 6).pages =
        spec_pages
          (DB.get_users_paginated { rows := [], nextId := 1, fails := false } 1 6).total 6 := by
  decide

/-- C1 amended: for every healthy store, `page ≥ 1` and `size ≥ 1`, the
page count computed by `get_users_paginated` equals `⌈total/size⌉` — the
least `m` with `total ≤ m·size` — which is `0` (not `1`) when `total = 0`;
and `get_resources_paginated` computes the same value on any store with the
same row count. -/
theorem C1_pages_amended (udb : UserDb) (rdb : ResourceDb) (page size : Nat)
    (hu : udb.fails = false) (hr : rdb.fails = false) (hs : 1 ≤ size) :
    ((DB.get_users_paginated udb page size).total = 0 →
      (DB.get_users_paginated udb page size).pages = 0) ∧
    ((DB.get_users_paginated udb page size).total ≤
        (DB.get_users_paginated udb page size).pages * size ∧
      ∀ m : Nat, (DB.get_users_paginated udb page size).total ≤ m * size →
        (DB.get_users_paginated udb page size).pages ≤ m) ∧
    (udb.rows.length = rdb.rows.length →
      (DB.get_users_paginated udb page size).pages =
        (DB.get_resources_paginated rdb page size).pages) := by
  rw [get_users_paginated_eq udb page size hu, get_resources_paginated_eq rdb page size hr]
  refine ⟨fun h0 => ?_, ⟨?_, fun m hm => ?_⟩, fun hlen => ?_⟩
  · simp only at h0 ⊢
    rw [h0]
    exact Nat.div_eq_of_lt (by omega)
  · simp only
    exact (pages_formula_le_iff udb.rows.length size _ hs).mp (Nat.le_refl _)
  · simp only at hm ⊢
    exact (pages_formula_le_iff udb.rows.length size m hs).mpr hm
  · simp only
    rw [hlen]

/-- Witness for `C1_pages_amended` on the three-row sample stores with
`size = 2`: the two entity types agree and `total ≤ pages * size`. -/
theorem C1_pages_amended_witness :
    (DB.get_users_paginated sampleUserDb 1 2).pages =
      (DB.get_resources_paginated sampleResourceDb 1 2).pages ∧
    (DB.get_users_paginated sampleUserDb 1 2).total ≤
      (DB.get_users_paginated sampleUserDb 1 2).pages * 2 := by
  have h := C1_pages_amended sampleUserDb sampleResourceDb 1 2 (by decide) (by decide)
    (by decide)
  exact ⟨h.2.2 (by decide), h.2.1.1⟩

/-! ## C2: pages beyond the last page -/

/-- C2: with `size ≥ 1`, requesting any page strictly beyond the computed
page count yields an empty `items` list while `total` and `pages` are the
same values that any other page request (e.g. an in-range one) reports, for
both the in-memory `paginate_data` and the store-backed
`get_users_paginated`; neither signals an error. -/
theorem C2_beyond_last_page {α : Type} (data : List α) (udb : UserDb)
    (page page' size : Nat) (hu : udb.fails = false) (hs : 1 ≤ size) :
    ((paginate_data data page size).pages < page →
      (paginate_data data page size).items = [] ∧
      (paginate_data data page size).total = (paginate_data data page' size).total ∧
      (paginate_data data page size).pages = (paginate_data data page' size).pages) ∧
    ((DB.get_users_paginated udb page size).pages < page →
      (DB.get_users_paginated udb page size).items = [] ∧
      (DB.get_users_paginated udb page size).total =
        (DB.get_users_paginated udb page' size).total ∧
      (DB.get_users_paginated udb page size).pages =
        (DB.get_users_paginated udb page' size).pages) := by
  constructor
  · intro h
    refine ⟨beyond_pages_slice_nil data page size hs h, rfl, rfl⟩
  · rw [get_users_paginated_eq udb page size hu, get_users_paginated_eq udb page' size hu]
    intro h
    exact ⟨beyond_pages_slice_nil udb.rows page size hs h, rfl, rfl⟩

/-- Witness for `C2_beyond_last_page`: 12 rows, `size = 6` gives
`pages = 2`, and page 3 yields no items with unchanged `total`/`pages`. -/
theorem C2_beyond_last_page_witness :
    (paginate_data [10, 20, 30] 5 1).pages < 5 ∧
    (paginate_data [10, 20, 30] 5 1).items = ([] : List Nat) ∧
    (paginate_data [10, 20, 30] 5 1).total = (paginate_data [10, 20, 30] 1 1).total ∧
    (paginate_data [10, 20, 30] 5 1).pages = (paginate_data [10, 20, 30] 1 1).pages := by
  have h := (C2_beyond_last_page [10, 20, 30] sampleUserDb 5 1 1 (by decide) (by decide)).1
    (by decide)
  exact ⟨by decide, h.1, h.2.1, h.2.2⟩

/-! ## C3: partial-update semantics -/

/-- C3: for both entity types, updating an absent id returns `None` with
the store unchanged; updating a present id returns an entity in which every
non-null argument overwrites the stored field, every null argument leaves
the stored value intact, and the store is rewritten only at that id. -/
theorem C3_partial_update (udb : UserDb) (rdb : ResourceDb) (uid rid : Int)
    (e f l a : Option String) (rn : Option String) (ry : Option Int)
    (rc rp : Option String) (hu : udb.fails = false) (hr : rdb.fails = false) :
    ((udb.rows.find? (fun x => x.id = uid) = none →
        DB.update_user udb uid e f l a = (none, udb)) ∧
      (∀ u, udb.rows.find? (fun x => x.id = uid) = some u →
        ∃ u', DB.update_user udb uid e f l a =
            (some u',
             { udb with rows := udb.rows.map (fun x => if x.id = uid then u' else x) }) ∧
          u'.id = u.id ∧
          (∀ s, e = some s → u'.email = s) ∧ (e = none → u'.email = u.email) ∧
          (∀ s, f = some s → u'.first_name = s) ∧ (f = none → u'.first_name = u.first_name) ∧
          (∀ s, l = some s → u'.last_name = s) ∧ (l = none → u'.last_name = u.last_name) ∧
          (∀ s, a = some s → u'.avatar = s) ∧ (a = none → u'.avatar = u.avatar))) ∧
    ((rdb.rows.find? (fun x => x.id = rid) = none →
        DB.update_resource rdb rid rn ry rc rp = (none, rdb)) ∧
      (∀ r, rdb.rows.find? (fun x => x.id = rid) = some r →
        ∃ r', DB.update_resource rdb rid rn ry rc rp =
            (some r',
             { rdb with rows := rdb.rows.map (fun x => if x.id = rid then r' else x) }) ∧
          r'.id = r.id ∧
          (∀ s, rn = some s → r'.name = s) ∧ (rn = none → r'.name = r.name) ∧
          (∀ y, ry = some y → r'.year = y) ∧ (ry = none → r'.year = r.year) ∧
          (∀ s, rc = some s → r'.color = s) ∧ (rc = none → r'.color = r.color) ∧
          (∀ s, rp = some s → r'.pantone_value = s) ∧
            (rp = none → r'.pantone_value = r.pantone_value))) := by
  refine ⟨⟨fun hnone => ?_, fun u hfind => ?_⟩, ⟨fun hnone => ?_, fun r hfind => ?_⟩⟩
  · simp [DB.update_user, hu, hnone]
  · refine ⟨{ u with
        email := e.getD u.email
        first_name := f.getD u.first_name
        last_name := l.getD u.last_name
        avatar := a.getD u.avatar }, ?_, rfl, ?_, ?_, ?_, ?_, ?_, ?_, ?_, ?_⟩
    · simp [DB.update_user, hu, hfind]
    · intro s hs; rw [hs]; rfl
    · intro hs; rw [hs]; rfl
    · intro s hs; rw [hs]; rfl
    · intro hs; rw [hs]; rfl
    · intro s hs; rw [hs]; rfl
    · intro hs; rw [hs]; rfl
    · intro s hs; rw [hs]; rfl
    · intro hs; rw [hs]; rfl
  · simp [DB.update_resource, hr, hnone]
  · refine ⟨{ r with
        name := rn.getD r.name
        year := ry.getD r.year
        color := rc.getD r.color
        pantone_value := rp.getD r.pantone_value }, ?_, rfl, ?_, ?_, ?_, ?_, ?_, ?_, ?_, ?_⟩
    · simp [DB.update_resource, hr, hfind]
    · intro s hs; rw [hs]; rfl
    · intro hs; rw [hs]; rfl
    · intro y hy; rw [hy]; rfl
    · intro hy; rw [hy]; rfl
    · intro s hs; rw [hs]; rfl
    · intro hs; rw [hs]; rfl
    · intro s hs; rw [hs]; rfl
    · intro hs; rw [hs]; rfl

/-- Witness for `C3_partial_update`: updating absent id 99 is a no-op
returning `None`; updating id 1's email alone changes the email and keeps
the other fields. -/
theorem C3_partial_update_witness :
    DB.update_user sampleUserDb 99 (some "new@example.com") none none none =
      (none, sampleUserDb) ∧
    ∃ u', (DB.update_user sampleUserDb 1 (some "new@example.com") none none none).1 =
        some u' ∧
      u'.email = "new@example.com" ∧ u'.first_name = (mkUser 1).first_name ∧
      u'.last_name = (mkUser 1).last_name ∧ u'.avatar = (mkUser 1).avatar := by
  have h1 := C3_partial_update sampleUserDb sampleResourceDb 99 99
    (some "new@example.com") none none none none none none none (by decide) (by decide)
  have h2 := C3_partial_update sampleUserDb sampleResourceDb 1 1
    (some "new@example.com") none none none none none none none (by decide) (by decide)
  refine ⟨h1.1.1 (by decide), ?_⟩
  obtain ⟨u', heq, _, hes, _, _, hfn, _, hln, _, han⟩ := h2.1.2 (mkUser 1) (by decide)
  exact ⟨u', by rw [heq], hes "new@example.com" rfl, hfn rfl, hln rfl, han rfl⟩

/-! ## C4: name-to-first/last translation on create -/

/-- Joins tokens with single spaces (used only to phrase the
specification's version of the split rule). -/
def joinTokens : List String → String
  | [] => ""
  | [t] => t
  | t :: rest => t ++ " " ++ joinTokens rest

/-- The first-name rule exactly as the specification words it: the last
token is the last name and the remainder — all leading tokens — is the
first name. -/
def spec_first_name (name : String) : String :=
  joinTokens (pySplit name).dropLast

/-- C4 counterexample: on the three-token name `"Mary Jane Watson"` the
code makes `first_name` the first token `"Mary"`, not the remainder
`"Mary Jane"` that the claim requires. -/
theorem C4_name_split_counterexample :
    derive_first_name "Mary Jane Watson" = "Mary" ∧
    spec_first_name "Mary Jane Watson" = "Mary Jane" ∧
    ¬ derive_first_name "Mary Jane Watson" = spec_first_name "Mary Jane Watson" := by
  decide

/-- C4 amended: for every name whose whitespace-token list is non-empty,
the create-user translation makes the FIRST token `first_name` (middle
tokens are dropped), the last token `last_name` when there are at least two
tokens and the empty string otherwise, and synthesizes the deterministic
placeholder email `lower(name) with spaces replaced by dots`@example.com. -/
theorem C4_name_split_amended (name t : String) (ts : List String)
    (h : pySplit name = t :: ts) :
    derive_first_name name = t ∧
    derive_last_name name = (if ts.isEmpty then "" else (t :: ts).getLastD "") ∧
    generated_email name = pyReplaceSpaceDot (pyLower name) ++ "@example.com" := by
  refine ⟨?_, ?_, rfl⟩
  · rw [derive_first_name, h]
  · rw [derive_last_name, h]
    cases ts with
    | nil => simp
    | cons b bs => simp [List.length]

/-- Witness for `C4_name_split_amended` at `"Mary Jane Watson"`:
first name `"Mary"`, last name `"Watson"`, email
`"mary.jane.watson@example.com"`. -/
theorem C4_name_split_amended_witness :
    derive_first_name "Mary Jane Watson" = "Mary" ∧
    derive_last_name "Mary Jane Watson" = "Watson" ∧
    generated_email "Mary Jane Watson" =
      pyReplaceSpaceDot (pyLower "Mary Jane Watson") ++ "@example.com" := by
  have h := C4_name_split_amended "Mary Jane Watson" "Mary" ["Jane", "Watson"] (by decide)
  refine ⟨h.1, ?_, h.2.2⟩
  rw [h.2.1]
  decide

/-! ## C5: strict delete semantics -/

/-- After removing every row with the given id, a lookup for that id finds
nothing (user table). -/
theorem find?_filter_users (l : List User) (uid : Int) :
    (l.filter (fun u => ¬ u.id = uid)).find? (fun u => u.id = uid) = none := by
  rw [List.find?_eq_none]
  intro x hx
  have h := (List.mem_filter.mp hx).2
  simp at h ⊢
  exact h

/-- After removing every row with the given id, a lookup for that id finds
nothing (resource table). -/
theorem find?_filter_resources (l : List Resource) (rid : Int) :
    (l.filter (fun r => ¬ r.id = rid)).find? (fun r => r.id = rid) = none := by
  rw [List.find?_eq_none]
  intro x hx
  have h := (List.mem_filter.mp hx).2
  simp at h ⊢
  exact h

/-- C5: for positive ids and a healthy store, both delete endpoints follow
the strict policy: absent id → 404 with the entity-specific error body and
the store untouched; present id → 204 with the row removed, and a
subsequent single-entity get for that id answers 404 not-found. -/
theorem C5_delete_strict (udb : UserDb) (rdb : ResourceDb) (uid rid : Int)
    (hu : udb.fails = false) (hr : rdb.fails = false)
    (hu1 : 1 ≤ uid) (hr1 : 1 ≤ rid) :
    (udb.rows.find? (fun x => x.id = uid) = none →
      API.delete_user udb uid =
        (.err 404 (.errorObj ("User " ++ toString uid ++ " not found")), udb)) ∧
    (∀ u, udb.rows.find? (fun x => x.id = uid) = some u →
      (API.delete_user udb uid).1 = .ok 204 () ∧
      ((API.delete_user udb uid).2).rows.find? (fun x => x.id = uid) = none ∧
      API.get_single_user ((API.delete_user udb uid).2) uid =
        .err 404 (.errorObj ("User " ++ toString uid ++ " not found"))) ∧
    (rdb.rows.find? (fun x => x.id = rid) = none →
      API.delete_resource rdb rid =
        (.err 404 (.errorObj ("Resource " ++ toString rid ++ " not found")), rdb)) ∧
    (∀ r, rdb.rows.find? (fun x => x.id = rid) = some r →
      (API.delete_resource rdb rid).1 = .ok 204 () ∧
      ((API.delete_resource rdb rid).2).rows.find? (fun x => x.id = rid) = none ∧
      API.get_single_resource ((API.delete_resource rdb rid).2) rid =
        .err 404 (.errorObj ("Resource " ++ toString rid ++ " not found"))) := by
  have hneu : ¬ uid < 1 := by omega
  have hner : ¬ rid < 1 := by omega
  refine ⟨fun hnone => ?_, fun u hfind => ?_, fun hnone => ?_, fun r hfind => ?_⟩
  · simp [API.delete_user, DB.delete_user, hu, hnone, hneu]
  · have hdel : DB.delete_user udb uid =
        (true, { udb with rows := udb.rows.filter (fun x => ¬ x.id = uid) }) := by
      simp [DB.delete_user, hu, hfind]
    have hroute : API.delete_user udb uid =
        (.ok 204 (), { udb with rows := udb.rows.filter (fun x => ¬ x.id = uid) }) := by
      simp [API.delete_user, hdel, hneu]
    refine ⟨by rw [hroute], ?_, ?_⟩
    · rw [hroute]
      exact find?_filter_users udb.rows uid
    · rw [hroute]
      have hget : DB.get_user
          { udb with rows := udb.rows.filter (fun x => ¬ x.id = uid) } uid = none := by
        unfold DB.get_user
        rw [if_neg (by simp [hu])]
        exact find?_filter_users udb.rows uid
      simp only [decide_not] at hget
      simp [API.get_single_user, hget, hneu]
  · simp [API.delete_resource, DB.delete_resource, hr, hnone, hner]
  · have hdel : DB.delete_resource rdb rid =
        (true, { rdb with rows := rdb.rows.filter (fun x => ¬ x.id = rid) }) := by
      simp [DB.delete_resource, hr, hfind]
    have hroute : API.delete_resource rdb rid =
        (.ok 204 (), { rdb with rows := rdb.rows.filter (fun x => ¬ x.id = rid) }) := by
      simp [API.delete_resource, hdel, hner]
    refine ⟨by rw [hroute], ?_, ?_⟩
    · rw [hroute]
      exact find?_filter_resources rdb.rows rid
    · rw [hroute]
      have hget : DB.get_resource
          { rdb with rows := rdb.rows.filter (fun x => ¬ x.id = rid) } rid = none := by
        unfold DB.get_resource
        rw [if_neg (by simp [hr])]
        exact find?_filter_resources rdb.rows rid
      simp only [decide_not] at hget
      simp [API.get_single_resource, hget, hner]

/-- Witness for `C5_delete_strict`: deleting absent id 99 answers 404 and
leaves the store; deleting present id 1 answers 204 and the follow-up get
answers 404. -/
theorem C5_delete_strict_witness :
    API.delete_user sampleUserDb 99 =
      (.err 404 (.errorObj ("User " ++ toString (99 : Int) ++ " not found")),
        sampleUserDb) ∧
    (API.delete_user sampleUserDb 1).1 = .ok 204 () ∧
    API.get_single_user (API.delete_user sampleUserDb 1).2 1 =
      .err 404 (.errorObj ("User " ++ toString (1 : Int) ++ " not found")) := by
  have h99 := C5_delete_strict sampleUserDb sampleResourceDb 99 99 (by decide) (by decide)
    (by decide) (by decide)
  have h1 := C5_delete_strict sampleUserDb sampleResourceDb 1 1 (by decide) (by decide)
    (by decide) (by decide)
  exact ⟨h99.1 (by decide), (h1.2.1 (mkUser 1) (by decide)).1,
    (h1.2.1 (mkUser 1) (by decide)).2.2⟩

/-! ## C6: id validation and not-found bodies on single get -/

/-- C6: for both entity types, a non-positive id is answered 422 "Invalid
... ID" (and in particular never 404), while a positive id absent from the
store is answered 404 with `{"error": "<Entity> <id> not found"}`. -/
theorem C6_get_single_validation (udb : UserDb) (rdb : ResourceDb) (uid rid : Int) :
    (uid ≤ 0 →
      API.get_single_user udb uid = .err 422 (.text "Invalid user ID") ∧
      ∀ d, ¬ API.get_single_user udb uid = .err 404 d) ∧
    (1 ≤ uid → udb.rows.find? (fun x => x.id = uid) = none →
      API.get_single_user udb uid =
        .err 404 (.errorObj ("User " ++ toString uid ++ " not found"))) ∧
    (rid ≤ 0 →
      API.get_single_resource rdb rid = .err 422 (.text "Invalid resource ID") ∧
      ∀ d, ¬ API.get_single_resource rdb rid = .err 404 d) ∧
    (1 ≤ rid → rdb.rows.find? (fun x => x.id = rid) = none →
      API.get_single_resource rdb rid =
        .err 404 (.errorObj ("Resource " ++ toString rid ++ " not found"))) := by
  refine ⟨fun h0 => ?_, fun h1 hnone => ?_, fun h0 => ?_, fun h1 hnone => ?_⟩
  · have hlt : uid < 1 := by omega
    have heq : API.get_single_user udb uid = .err 422 (.text "Invalid user ID") := by
      simp [API.get_single_user, hlt]
    refine ⟨heq, fun d hd => ?_⟩
    rw [heq] at hd
    simp at hd
  · have hget : DB.get_user udb uid = none := by
      cases hf : udb.fails <;> simp [DB.get_user, hf, hnone]
    simp [API.get_single_user, hget, show ¬ uid < 1 by omega]
  · have hlt : rid < 1 := by omega
    have heq : API.get_single_resource rdb rid = .err 422 (.text "Invalid resource ID") := by
      simp [API.get_single_resource, hlt]
    refine ⟨heq, fun d hd => ?_⟩
    rw [heq] at hd
    simp at hd
  · have hget : DB.get_resource rdb rid = none := by
      cases hf : rdb.fails <;> simp [DB.get_resource, hf, hnone]
    simp [API.get_single_resource, hget, show ¬ rid < 1 by omega]

/-- Witness for `C6_get_single_validation`: id 0 answers 422 and id 99
(absent from the sample store) answers the 404 body. -/
theorem C6_get_single_validation_witness :
    API.get_single_user sampleUserDb 0 = .err 422 (.text "Invalid user ID") ∧
    API.get_single_user sampleUserDb 99 =
      .err 404 (.errorObj ("User " ++ toString (99 : Int) ++ " not found")) := by
  have h := C6_get_single_validation sampleUserDb sampleResourceDb 0 0
  have h99 := C6_get_single_validation sampleUserDb sampleResourceDb 99 99
  exact ⟨(h.1 (by decide)).1, h99.2.1 (by decide) (by decide)⟩

/-! ## C7: auth validation chain -/

/-- C7: for any email-syntax checker and random id draw, both auth
endpoints answer: falsy (absent or empty) email → 400 "Missing email";
present non-empty email failing the syntax check → 400 "Invalid email
format"; valid email with falsy password → 400 "Missing password"; valid
email and non-empty password → success, register with the random id plus
the fixed token, login with only the fixed token. -/
theorem C7_auth_validation (validEmail : String → Bool) (randomId : Nat)
    (body : AuthBody) :
    (pyFalsy body.email = true →
      API.register_user validEmail randomId body = .err 400 (.errorObj "Missing email") ∧
      API.login_user validEmail body = .err 400 (.errorObj "Missing email")) ∧
    (∀ e, body.email = some e → ¬ e = "" → validEmail e = false →
      API.register_user validEmail randomId body =
        .err 400 (.errorObj "Invalid email format") ∧
      API.login_user validEmail body = .err 400 (.errorObj "Invalid email format")) ∧
    (∀ e, body.email = some e → ¬ e = "" → validEmail e = true →
      pyFalsy body.password = true →
      API.register_user validEmail randomId body =
        .err 400 (.errorObj "Missing password") ∧
      API.login_user validEmail body = .err 400 (.errorObj "Missing password")) ∧
    (∀ e p, body.email = some e → ¬ e = "" → validEmail e = true →
      body.password = some p → ¬ p = "" →
      API.register_user validEmail randomId body =
        .ok 201 { id := randomId, token := "QpwL5tke4Pnpja7X4" } ∧
      API.login_user validEmail body = .ok 200 { token := "QpwL5tke4Pnpja7X4" }) := by
  refine ⟨fun hfalsy => ?_, fun e he hne hv => ?_, fun e he hne hv hpw => ?_,
    fun e p he hne hv hp hpne => ?_⟩
  · constructor <;> simp [API.register_user, API.login_user, hfalsy]
  · have hf : pyFalsy (some e) = false := by simp [pyFalsy, hne]
    constructor <;> simp [API.register_user, API.login_user, hf, he, hv]
  · have hf : pyFalsy (some e) = false := by simp [pyFalsy, hne]
    constructor <;> simp [API.register_user, API.login_user, hf, he, hv, hpw]
  · have hf : pyFalsy (some e) = false := by simp [pyFalsy, hne]
    have hpf : pyFalsy (some p) = false := by simp [pyFalsy, hpne]
    constructor <;> simp [API.register_user, API.login_user, hf, he, hv, hp, hpf]

/-- Witness for `C7_auth_validation`: the four branches at concrete
bodies, with the syntax checker accepting exactly `"eve.holt@reqres.in"`
and random id 7. -/
theorem C7_auth_validation_witness :
    API.register_user (fun s => s = "eve.holt@reqres.in") 7
        { email := none, password := some "pistol" } =
      .err 400 (.errorObj "Missing email") ∧
    API.register_user (fun s => s = "eve.holt@reqres.in") 7
        { email := some "not-an-email", password := some "pistol" } =
      .err 400 (.errorObj "Invalid email format") ∧
    API.register_user (fun s => s = "eve.holt@reqres.in") 7
        { email := some "eve.holt@reqres.in", password := none } =
      .err 400 (.errorObj "Missing password") ∧
    API.register_user (fun s => s = "eve.holt@reqres.in") 7
        { email := some "eve.holt@reqres.in", password := some "pistol" } =
      .ok 201 { id := 7, token := "QpwL5tke4Pnpja7X4" } ∧
    API.login_user (fun s => s = "eve.holt@reqres.in")
        { email := some "eve.holt@reqres.in", password := some "pistol" } =
      .ok 200 { token := "QpwL5tke4Pnpja7X4" } := by
  have h1 := C7_auth_validation (fun s => s = "eve.holt@reqres.in") 7
    { email := none, password := some "pistol" }
  have h2 := C7_auth_validation (fun s => s = "eve.holt@reqres.in") 7
    { email := some "not-an-email", password := some "pistol" }
  have h3 := C7_auth_validation (fun s => s = "eve.holt@reqres.in") 7
    { email := some "eve.holt@reqres.in", password := none }
  have h4 := C7_auth_validation (fun s => s = "eve.holt@reqres.in") 7
    { email := some "eve.holt@reqres.in", password := some "pistol" }
  refine ⟨(h1.1 (by decide)).1,
    (h2.2.1 "not-an-email" rfl (by decide) (by decide)).1,
    (h3.2.2.1 "eve.holt@reqres.in" rfl (by decide) (by decide) (by decide)).1,
    (h4.2.2.2 "eve.holt@reqres.in" "pistol" rfl (by decide) (by decide) rfl
      (by decide)).1,
    (h4.2.2.2 "eve.holt@reqres.in" "pistol" rfl (by decide) (by decide) rfl
      (by decide)).2⟩

/-! ## C8: store failures become sentinels -/

/-- C8: when the store raises, every service function of both entity types
returns its sentinel — `None` for get/create/update, `False` with the store
unchanged for delete, `0` for count, and the empty page for the paginated
list — instead of propagating the exception. -/
theorem C8_store_failure_sentinels
    (udb : UserDb) (rdb : ResourceDb) (uid rid : Int) (upage usize rpage rsize : Nat)
    (ce cf cl ca : String) (ue uf ul ua : Option String)
    (cn : String) (cy : Int) (cc cp : String)
    (rn : Option String) (ry : Option Int) (rc rp : Option String)
    (hu : udb.fails = true) (hr : rdb.fails = true) :
    DB.get_user udb uid = none ∧
    DB.get_users_paginated udb upage usize =
      { items := [], page := upage, size := usize, total := 0, pages := 0 } ∧
    DB.create_user udb ce cf cl ca = (none, udb) ∧
    DB.update_user udb uid ue uf ul ua = (none, udb) ∧
    DB.delete_user udb uid = (false, udb) ∧
    DB.get_users_count udb = 0 ∧
    DB.get_resource rdb rid = none ∧
    DB.get_resources_paginated rdb rpage rsize =
      { items := [], page := rpage, size := rsize, total := 0, pages := 0 } ∧
    DB.create_resource rdb cn cy cc cp = (none, rdb) ∧
    DB.update_resource rdb rid rn ry rc rp = (none, rdb) ∧
    DB.delete_resource rdb rid = (false, rdb) ∧
    DB.get_resources_count rdb = 0 := by
  refine ⟨?_, ?_, ?_, ?_, ?_, ?_, ?_, ?_, ?_, ?_, ?_, ?_⟩ <;>
    simp [DB.get_user, DB.get_users_paginated, DB.create_user, DB.update_user,
      DB.delete_user, DB.get_users_count, DB.get_resource, DB.get_resources_paginated,
      DB.create_resource, DB.update_resource, DB.delete_resource, DB.get_resources_count,
      hu, hr]

/-- Witness for `C8_store_failure_sentinels` on the failing sample
stores. -/
theorem C8_store_failure_sentinels_witness :
    DB.get_user failingUserDb 1 = none ∧
    DB.delete_user failingUserDb 1 = (false, failingUserDb) ∧
    DB.get_resources_count failingResourceDb = 0 := by
  have h := C8_store_failure_sentinels failingUserDb failingResourceDb 1 1 1 6 1 6
    "e" "f" "l" "a" none none none none "n" 2000 "c" "p" none none none none
    (by decide) (by decide)
  exact ⟨h.1, h.2.2.2.2.1, h.2.2.2.2.2.2.2.2.2.2.2⟩

/-! ## C9: the delay parameter never influences the page envelope -/

/-- C9: two runs of the list-users handler with the same page and size on
the same store but different delays in 0..10 return identical page
envelopes; the delay affects only the slept duration. -/
theorem C9_delay_noninterference (udb : UserDb) (page size d1 d2 : Nat)
    (h1 : d1 ≤ 10) (h2 : d2 ≤ 10) :
    (API.get_users_with_delay udb page size d1).2 =
      (API.get_users_with_delay udb page size d2).2 := rfl

/-- Witness for `C9_delay_noninterference`: delay 0 and delay 10 on the
sample store give the same envelope. -/
theorem C9_delay_noninterference_witness :
    (API.get_users_with_delay sampleUserDb 1 2 0).2 =
      (API.get_users_with_delay sampleUserDb 1 2 10).2 :=
  C9_delay_noninterference sampleUserDb 1 2 0 10 (by decide) (by decide)

/-! ## C10: PUT/PATCH persist only the derived name fields -/

/-- The row produced by `DB.update_user`'s non-null merge, named for use in
frame statements. -/
def mergeUser (u : User) (email first_name last_name avatar : Option String) : User :=
  { u with
    email := email.getD u.email
    first_name := first_name.getD u.first_name
    last_name := last_name.getD u.last_name
    avatar := avatar.getD u.avatar }

/-- Closed form of `DB.update_user` on a healthy store when the row is
present. -/
theorem update_user_eq (db : UserDb) (uid : Int) (e f l a : Option String)
    (u : User) (hu : db.fails = false)
    (hfind : db.rows.find? (fun x => x.id = uid) = some u) :
    DB.update_user db uid e f l a =
      (some (mergeUser u e f l a),
       { db with rows := db.rows.map (fun x =>
           if x.id = uid then mergeUser u e f l a else x) }) := by
  simp [DB.update_user, hu, hfind, mergeUser]

/-- C10: on an existing positive id of a healthy duplicate-free store, the
users PUT handler always answers 200 echoing `name` and `job` with the
fresh `updatedAt`; the store keeps the same number of rows and every row
keeps its `id`, `email` and `avatar` (rows other than the target are
untouched entirely, so only the target's `first_name`/`last_name` can
change and `job` is never persisted); when the supplied `name` is null or
empty the store is not written at all; and PATCH behaves identically to
PUT. -/
theorem C10_put_patch_frame (udb : UserDb) (uid : Int) (body : UpdateUserRequest)
    (now : Nat) (u : User) (hu : udb.fails = false) (h1 : 1 ≤ uid)
    (hnodup : (udb.rows.map User.id).Nodup)
    (hfind : udb.rows.find? (fun x => x.id = uid) = some u) :
    (API.update_user_put udb uid body now).1 =
      .ok 200 { name := body.name, job := body.job, updatedAt := now } ∧
    ((API.update_user_put udb uid body now).2).rows.length = udb.rows.length ∧
    (∀ x ∈ udb.rows, ∃ x', x' ∈ ((API.update_user_put udb uid body now).2).rows ∧
      x'.id = x.id ∧ x'.email = x.email ∧ x'.avatar = x.avatar ∧
      (¬ x.id = uid → x' = x)) ∧
    ((body.name = none ∨ body.name = some "") →
      (API.update_user_put udb uid body now).2 = udb) ∧
    API.update_user_patch udb uid body now = API.update_user_put udb uid body now := by
  have hneu : ¬ uid < 1 := by omega
  have hget : DB.get_user udb uid = some u := by simp [DB.get_user, hu, hfind]
  have hu_mem : u ∈ udb.rows := List.mem_of_find?_eq_some hfind
  have hu_id : u.id = uid := by
    have := List.find?_some hfind
    simpa using this
  cases hbn : body.name with
  | none =>
    have hroute : API.update_user_put udb uid body now =
        (.ok 200 { name := body.name, job := body.job, updatedAt := now }, udb) := by
      simp [API.update_user_put, hget, hneu, hbn]
    exact ⟨by rw [hroute, hbn], by rw [hroute],
      fun x hx => ⟨x, by rw [hroute]; exact hx, rfl, rfl, rfl, fun _ => rfl⟩,
      fun _ => by rw [hroute], rfl⟩
  | some n =>
    by_cases hne : n = ""
    · subst hne
      have hroute : API.update_user_put udb uid body now =
          (.ok 200 { name := body.name, job := body.job, updatedAt := now }, udb) := by
        simp [API.update_user_put, hget, hneu, hbn]
      exact ⟨by rw [hroute, hbn], by rw [hroute],
        fun x hx => ⟨x, by rw [hroute]; exact hx, rfl, rfl, rfl, fun _ => rfl⟩,
        fun _ => by rw [hroute], rfl⟩
    · have hroute : API.update_user_put udb uid body now =
          (.ok 200 { name := body.name, job := body.job, updatedAt := now },
           (DB.update_user udb uid none (some (derive_first_name n))
             (some (derive_last_name n)) none).2) := by
        simp [API.update_user_put, hget, hneu, hbn, hne]
      have hupd := update_user_eq udb uid none (some (derive_first_name n))
        (some (derive_last_name n)) none u hu hfind
      refine ⟨by rw [hroute, hbn], ?_, ?_, ?_, rfl⟩
      · rw [hroute, hupd]
        exact List.length_map udb.rows _
      · intro x hx
        by_cases hxid : x.id = uid
        · have hxu : x = u := List.inj_on_of_nodup_map hnodup hx hu_mem
            (by rw [hxid, hu_id])
          subst hxu
          refine ⟨mergeUser x none (some (derive_first_name n))
            (some (derive_last_name n)) none, ?_, rfl, rfl, rfl,
            fun hc => absurd hxid hc⟩
          rw [hroute, hupd]
          exact List.mem_map.mpr ⟨x, hx, by simp [hxid]⟩
        · refine ⟨x, ?_, rfl, rfl, rfl, fun _ => rfl⟩
          rw [hroute, hupd]
          exact List.mem_map.mpr ⟨x, hx, by simp [hxid]⟩
      · intro hcase
        rcases hcase with hc | hc
        · exact absurd hc (by simp)
        · exact absurd hc (by simp [hne])

/-- Witness for `C10_put_patch_frame`: updating user 1 with a new name
answers 200 echoing name/job/timestamp, and updating with a null name
leaves the store untouched. -/
theorem C10_put_patch_frame_witness :
    (API.update_user_put sampleUserDb 1
        { name := some "Neo Anderson", job := some "dev" } 7).1 =
      .ok 200 { name := some "Neo Anderson", job := some "dev", updatedAt := 7 } ∧
    (API.update_user_put sampleUserDb 1 { name := none, job := some "dev" } 7).2 =
      sampleUserDb := by
  have ha := C10_put_patch_frame sampleUserDb 1
    { name := some "Neo Anderson", job := some "dev" } 7 (mkUser 1)
    (by decide) (by decide) (by decide) (by decide)
  have hb := C10_put_patch_frame sampleUserDb 1
    { name := none, job := some "dev" } 7 (mkUser 1)
    (by decide) (by decide) (by decide) (by decide)
  exact ⟨ha.1, hb.2.2.2.1 (Or.inl rfl)⟩
